import Mathlib

/-!
# Verification of the RSV FASTA filtering/reformatting scripts

Shallow embedding of the record validation, classification and reformatting
logic of `scripts/filterSeqs.py`, `scripts/reformatSeqs.py` and
`scripts/reformat_fasta.py`.

Modelling conventions:
* A text stream is a `List String` of its lines, each line given without its
  trailing terminator.  Every use of a line in the scripts goes through
  `str.strip()` or only looks at the first character, so dropping the
  terminator is faithful; for `reformat_fasta.py`, which writes lines back
  verbatim, the output is likewise a list of lines.
* Python `str` operations are modelled character-wise over the ASCII
  fragment the data uses: `\s` (and `str.strip`/`str.split`) recognise the
  six ASCII whitespace characters, `str.lower`/`str.upper` are the per-char
  ASCII maps `Char.toLower`/`Char.toUpper`.
* The regex searches in the scripts are alternations of literal substrings
  (`rsv/?a` abbreviates the two literals `rsva` and `rsv/a`), so a regex
  `search` is modelled as a disjunction of substring-containment tests, and
  `re.sub(r'\.\d+', '')` as the removal of every occurrence of a dot
  followed by a maximal nonempty digit run.
* CLI integers (`--minlen`, `--maxlen`, `--maxambigs`) are `Int`.
* Writes to the output file, to `stderr` and appends to the retained-id
  list are accumulated in encounter order as three `List String` components.
-/

namespace RsvAnalyzer

/-- The six ASCII whitespace characters recognised by Python's `\s`,
`str.strip()` and `str.split()` on ASCII text. -/
def isPySpace (c : Char) : Bool :=
  c = ' ' || c = '\t' || c = '\n' || c = '\r' || c = '\x0b' || c = '\x0c'

/-- `remove_whitespace_regex` of both scripts: `re.sub(r'\s+', '', s)`,
i.e. delete every whitespace character of `s`. -/
def remove_whitespace_regex (s : String) : String :=
  String.mk (s.toList.filter (fun c => !isPySpace c))

/-- The ambiguous IUPAC nucleotide codes, string `"RYSMKWBVDHNX"` of
`count_ambiguous_bases`. -/
def ambiguous_bases : List Char :=
  ['R', 'Y', 'S', 'M', 'K', 'W', 'B', 'V', 'D', 'H', 'N', 'X']

/-- `count_ambiguous_bases(sequence)`: the number of characters of
`sequence.upper()` that lie in `ambiguous_bases`. -/
def count_ambiguous_bases (s : String) : Nat :=
  ((s.toList.map Char.toUpper).filter (fun c => ambiguous_bases.contains c)).length

/-- Python `str.lower()` on ASCII text, character by character. -/
def lowerStr (s : String) : String :=
  String.mk (s.toList.map Char.toLower)

/-- `l` begins with the list `sub`. -/
def startsWithList : List Char → List Char → Bool
  | [], _ => true
  | _ :: _, [] => false
  | c :: cs, d :: ds => c = d && startsWithList cs ds

/-- `sub` occurs as a contiguous run inside `l`; this is the substring test
a regex alternation of literals performs at every position. -/
def containsList (sub : List Char) : List Char → Bool
  | [] => startsWithList sub []
  | l@(_ :: rest) => startsWithList sub l || containsList sub rest

/-- Substring containment on strings (Python `sub in s` / literal regex
search). -/
def strContains (s sub : String) : Bool :=
  containsList sub.toList s.toList

/-- Python `str.strip()`: drop leading and trailing whitespace. -/
def stripStr (s : String) : String :=
  String.mk (((s.toList.dropWhile isPySpace).reverse.dropWhile isPySpace).reverse)

/-- Auxiliary for Python's no-argument `str.split()`: split on runs of
whitespace, discarding empty pieces; `acc` holds the reversed current
token. -/
def splitWSAux : List Char → List Char → List String
  | acc, [] => if acc.isEmpty then [] else [String.mk acc.reverse]
  | acc, c :: cs =>
    if isPySpace c then
      if acc.isEmpty then splitWSAux [] cs
      else String.mk acc.reverse :: splitWSAux [] cs
    else splitWSAux (c :: acc) cs

/-- Python `str.split()` with no separator argument. -/
def splitWS (s : String) : List String :=
  splitWSAux [] s.toList

/-- `line.startswith('>')`. -/
def startsWithGt (s : String) : Bool :=
  match s.toList with
  | '>' :: _ => true
  | _ => false

/-- Python `s[1:]` on a string. -/
def strDrop1 (s : String) : String :=
  String.mk (s.toList.drop 1)

/-- First character of the list is an ASCII digit. -/
def firstIsDigit : List Char → Bool
  | [] => false
  | c :: _ => c.isDigit

/-- Auxiliary for `re.sub(r'\.\d+', '', s)`: scan left to right; the flag
records that the previously consumed character was part of a removed
`.<digits>` match whose digit run may continue. -/
def removeVersionsAux : Bool → List Char → List Char
  | _, [] => []
  | inDrop, c :: cs =>
    if inDrop && c.isDigit then removeVersionsAux true cs
    else if c = '.' && firstIsDigit cs then removeVersionsAux true cs
    else c :: removeVersionsAux false cs

/-- `re.sub(r'\.\d+', '', header)` of `reformatSeqs.py`: delete every
occurrence of `.` followed by a maximal nonempty run of digits. -/
def removeVersions (s : String) : String :=
  String.mk (removeVersionsAux false s.toList)

/-- The record-acceptance test shared by every finalize block:
`(seq_minlen <= seqlen <= seq_maxlen) and (ambiguous_count <= maxambigs)`
on the whitespace-stripped sequence. -/
def acceptB (seq_minlen seq_maxlen maxambigs : Int) (sequence : String) : Bool :=
  (decide (seq_minlen ≤ (sequence.length : Int)) &&
   decide ((sequence.length : Int) ≤ seq_maxlen)) &&
  decide ((count_ambiguous_bases sequence : Int) ≤ maxambigs)

/-- State threaded through the line loop of `validate_sequences` in both
scripts, together with the accumulated observable effects: lines written to
the output file, lines printed to `stderr`, and `seqids_above_cutoff`. -/
structure LoopState where
  sequence : String
  header : Option String
  out : List String
  err : List String
  ids : List String
deriving Repr, DecidableEq

namespace FilterSeqs

/-- `determine_subtype(header_line)` of `filterSeqs.py`: lower-case the
header and search it, A-pattern first, with
`r'rsv/?a|virus a|rsva|subgroup a'` (literals `rsva`, `rsv/a`, `virus a`,
`subgroup a`), then the analogous B-pattern. -/
def determine_subtype (header_line : String) : String :=
  let header_lower := lowerStr header_line
  if strContains header_lower "rsva" || strContains header_lower "rsv/a" ||
     strContains header_lower "virus a" || strContains header_lower "subgroup a" then
    "RSV_A"
  else if strContains header_lower "rsvb" || strContains header_lower "rsv/b" ||
     strContains header_lower "virus b" || strContains header_lower "subgroup b" then
    "RSV_B"
  else
    "UNKNOWN"

/-- The inclusion gate `include_pattern.search(header)` of `filterSeqs.py`:
`re.compile(r'rsv/A|rsv/B|virus A|virus B|rsva|rsvb|Subgroup', re.IGNORECASE)`,
i.e. a case-insensitive search for any of seven literal substrings. -/
def include_matches (header : String) : Bool :=
  let h := lowerStr header
  strContains h "rsv/a" || strContains h "rsv/b" ||
  strContains h "virus a" || strContains h "virus b" ||
  strContains h "rsva" || strContains h "rsvb" || strContains h "subgroup"

/-- The two `stderr` lines printed when a record fails validation in
`filterSeqs.py` (identical text in the mid-stream and final blocks). -/
def rejectDiag (seq_minlen seq_maxlen maxambigs : Int) (header : String)
    (seqlen ambiguous_count : Nat) : List String :=
  ["validate_sequences:: " ++ header,
   "validate_sequences:: sequence length: " ++ toString seqlen ++
     " is outside the acceptable range [" ++ toString seq_minlen ++ ", " ++
     toString seq_maxlen ++ "] or ambiguous bases: " ++
     toString ambiguous_count ++ " > " ++ toString maxambigs]

/-- The `stderr` line printed when a header fails the inclusion gate. -/
def skipDiag (header : String) : String :=
  "validate_sequences:: Skipping " ++ header ++ " (does not match target pattern)"

/-- The mid-stream "Process previous record" block of
`filterSeqs.validate_sequences` (lines written to output, lines printed to
`stderr`, ids appended to `seqids_above_cutoff`). -/
def finalizeRecord (seq_minlen seq_maxlen maxambigs : Int) (header seqRaw : String) :
    List String × List String × List String :=
  let sequence := remove_whitespace_regex seqRaw
  let seqlen := sequence.length
  let ambiguous_count := count_ambiguous_bases sequence
  if acceptB seq_minlen seq_maxlen maxambigs sequence then
    let subtype := determine_subtype header
    let raw_id := strDrop1 ((splitWS header).headD "")
    let rest := String.intercalate " " ((splitWS header).drop 1)
    ([">" ++ raw_id ++ "|" ++ subtype ++ " len=" ++ toString seqlen ++ " " ++ rest,
      sequence], [], [raw_id])
  else
    ([], rejectDiag seq_minlen seq_maxlen maxambigs header seqlen ambiguous_count, [])

/-- The "Process final record" block of `filterSeqs.validate_sequences`
(transcribed separately: the source duplicates the code after the loop). -/
def finalizeLast (seq_minlen seq_maxlen maxambigs : Int) (header seqRaw : String) :
    List String × List String × List String :=
  let sequence := remove_whitespace_regex seqRaw
  let seqlen := sequence.length
  let ambiguous_count := count_ambiguous_bases sequence
  if acceptB seq_minlen seq_maxlen maxambigs sequence then
    let subtype := determine_subtype header
    let raw_id := strDrop1 ((splitWS header).headD "")
    let rest := String.intercalate " " ((splitWS header).drop 1)
    ([">" ++ raw_id ++ "|" ++ subtype ++ " len=" ++ toString seqlen ++ " " ++ rest,
      sequence], [], [raw_id])
  else
    ([], rejectDiag seq_minlen seq_maxlen maxambigs header seqlen ambiguous_count, [])

/-- One iteration of the `for line in input_file` loop of
`filterSeqs.validate_sequences`. -/
def step (seq_minlen seq_maxlen maxambigs : Int) (st : LoopState) (line : String) :
    LoopState :=
  if startsWithGt line then
    let st1 :=
      match st.header with
      | some h =>
        let r := finalizeRecord seq_minlen seq_maxlen maxambigs h st.sequence
        { st with out := st.out ++ r.1, err := st.err ++ r.2.1, ids := st.ids ++ r.2.2 }
      | none => st
    let header := stripStr line
    if include_matches header then
      { st1 with header := some header, sequence := "" }
    else
      { st1 with err := st1.err ++ [skipDiag header], header := none, sequence := "" }
  else
    { st with sequence := st.sequence ++ stripStr line }

/-- `filterSeqs.validate_sequences` over a whole line stream: the loop,
then the final-record block guarded by
`if header and include_pattern.search(header)`. -/
def validate_sequences (seq_minlen seq_maxlen maxambigs : Int) (lines : List String) :
    List String × List String × List String :=
  let st := lines.foldl (step seq_minlen seq_maxlen maxambigs)
    { sequence := "", header := none, out := [], err := [], ids := [] }
  match st.header with
  | some h =>
    if include_matches h then
      let r := finalizeLast seq_minlen seq_maxlen maxambigs h st.sequence
      (st.out ++ r.1, st.err ++ r.2.1, st.ids ++ r.2.2)
    else (st.out, st.err, st.ids)
  | none => (st.out, st.err, st.ids)

end FilterSeqs

namespace ReformatSeqs

/-- The two `stderr` lines of the mid-stream rejection branch of
`reformatSeqs.validate_sequences` (note: no space after the colons, unlike
`filterSeqs.py`). -/
def rejectDiag (seq_minlen seq_maxlen maxambigs : Int) (header : String)
    (seqlen ambiguous_count : Nat) : List String :=
  ["validate_sequences:: " ++ header,
   "validate_sequences:: sequence length:" ++ toString seqlen ++
     " is outside the acceptable range [" ++ toString seq_minlen ++ ", " ++
     toString seq_maxlen ++ "] or ambiguous bases:" ++
     toString ambiguous_count ++ " > " ++ toString maxambigs]

/-- The two `stderr` lines of the after-loop rejection branch of
`reformatSeqs.validate_sequences` (its wording differs from the mid-stream
branch). -/
def rejectDiagLast (seq_minlen seq_maxlen maxambigs : Int) (header : String)
    (seqlen ambiguous_count : Nat) : List String :=
  ["validate_sequences:: " ++ header,
   "validate_sequences:: " ++ toString seqlen ++
     " is outside the acceptable range [" ++ toString seq_minlen ++ ", " ++
     toString seq_maxlen ++ "] or " ++ toString ambiguous_count ++ " > " ++
     toString maxambigs]

/-- `header.split(' ')[0][1:]` of `reformatSeqs.py`: the characters before
the first space, without the leading `>`. -/
def seqidOf (header : String) : String :=
  strDrop1 (String.mk (header.toList.takeWhile (fun c => c ≠ ' ')))

/-- The mid-stream `if header:` block of `reformatSeqs.validate_sequences`:
acceptance uses `ambiguous_count <= maxambigs`. -/
def finalizeRecord (seq_minlen seq_maxlen maxambigs : Int) (header seqRaw : String) :
    List String × List String × List String :=
  let sequence := remove_whitespace_regex seqRaw
  let seqlen := sequence.length
  let ambiguous_count := count_ambiguous_bases sequence
  if acceptB seq_minlen seq_maxlen maxambigs sequence then
    ([header ++ " len=" ++ toString seqlen, sequence], [], [seqidOf header])
  else
    ([], rejectDiag seq_minlen seq_maxlen maxambigs header seqlen ambiguous_count, [])

/-- The after-loop block of `reformatSeqs.validate_sequences`, transcribed
as written: its acceptance test is
`seq_minlen <= seqlen <= seq_maxlen and ambiguous_count < maxambigs`,
with a strict `<` on the ambiguity count. -/
def finalizeLast (seq_minlen seq_maxlen maxambigs : Int) (header seqRaw : String) :
    List String × List String × List String :=
  let sequence := remove_whitespace_regex seqRaw
  let seqlen := sequence.length
  let ambiguous_count := count_ambiguous_bases sequence
  if (decide (seq_minlen ≤ (seqlen : Int)) && decide ((seqlen : Int) ≤ seq_maxlen)) &&
     decide ((ambiguous_count : Int) < maxambigs) then
    ([header ++ " len=" ++ toString seqlen, sequence], [], [seqidOf header])
  else
    ([], rejectDiagLast seq_minlen seq_maxlen maxambigs header seqlen ambiguous_count, [])

/-- One iteration of the `for line in input_file` loop of
`reformatSeqs.validate_sequences`: on a header line, finalize the previous
record, then store the stripped line with every `.<digits>` occurrence
removed. -/
def step (seq_minlen seq_maxlen maxambigs : Int) (st : LoopState) (line : String) :
    LoopState :=
  if startsWithGt line then
    let st1 :=
      match st.header with
      | some h =>
        let r := finalizeRecord seq_minlen seq_maxlen maxambigs h st.sequence
        { st with out := st.out ++ r.1, err := st.err ++ r.2.1, ids := st.ids ++ r.2.2 }
      | none => st
    { st1 with header := some (removeVersions (stripStr line)), sequence := "" }
  else
    { st with sequence := st.sequence ++ stripStr line }

/-- `reformatSeqs.validate_sequences` over a whole line stream: the loop,
then the after-loop block guarded by `if header:`. -/
def validate_sequences (seq_minlen seq_maxlen maxambigs : Int) (lines : List String) :
    List String × List String × List String :=
  let st := lines.foldl (step seq_minlen seq_maxlen maxambigs)
    { sequence := "", header := none, out := [], err := [], ids := [] }
  match st.header with
  | some h =>
    let r := finalizeLast seq_minlen seq_maxlen maxambigs h st.sequence
    (st.out ++ r.1, st.err ++ r.2.1, st.ids ++ r.2.2)
  | none => (st.out, st.err, st.ids)

end ReformatSeqs

namespace ReformatFasta

/-- The body of the `for line in in_stream` loop of
`reformat_fasta.reformat_stream`, as the line it writes for one input
line: a header line whose text after `>` splits into exactly two
whitespace-delimited tokens becomes `>ID|ref_ACC`; every other line is
written back unchanged. -/
def reformatLine (line : String) : String :=
  if startsWithGt line then
    let header := stripStr (strDrop1 line)
    let parts := splitWS header
    match parts with
    | [id0, acc] => ">" ++ id0 ++ "|ref_" ++ acc
    | _ => line
  else line

/-- `reformat_fasta.reformat_stream`: one output line per input line. -/
def reformat_stream (lines : List String) : List String :=
  lines.map reformatLine

end ReformatFasta

/-! Derived and spec-side definitions used to state the claims. -/

/-- The characters following `rest` start with `.` followed by a digit; a
string satisfies `noDotDigit` exactly when `re.sub(r'\.\d+', '', ·)` has
nothing to remove. -/
def noDotDigitL : List Char → Bool
  | [] => true
  | c :: rest => !(c = '.' && firstIsDigit rest) && noDotDigitL rest

/-- No occurrence of `.` immediately followed by a digit anywhere in `s`. -/
def noDotDigit (s : String) : Bool :=
  noDotDigitL s.toList

/-- `s` contains at least one of the literal substrings in `pats`. -/
def matchesAny (s : String) (pats : List String) : Bool :=
  pats.any (fun p => strContains s p)

/-- The A-subtype substring vocabulary as the amended spec states it:
`rsv/?a` of the source regex matches exactly the literals `rsva` and
`rsv/a`, so the vocabulary has no entry for `rsv a` with a space. -/
def specAForms : List String :=
  ["rsva", "rsv/a", "virus a", "subgroup a"]

/-- The analogous B-subtype substring vocabulary. -/
def specBForms : List String :=
  ["rsvb", "rsv/b", "virus b", "subgroup b"]

/-- Subtype classifier written from the amended spec wording: lower-case
the header, test the A vocabulary strictly before the B vocabulary. -/
def subtypeOfSpec (h : String) : String :=
  if matchesAny (lowerStr h) specAForms then "RSV_A"
  else if matchesAny (lowerStr h) specBForms then "RSV_B"
  else "UNKNOWN"

/-- The sequence string accumulated by the drivers for a record whose body
lines are `bodyLines`: `sequence += line.strip()` over the lines in order. -/
def accumulatedBody (bodyLines : List String) : String :=
  bodyLines.foldl (fun s l => s ++ stripStr l) ""

/-- The raw text of the same body lines as they stand in the input file,
each line with its terminator. -/
def rawBody (bodyLines : List String) : String :=
  bodyLines.foldl (fun s l => s ++ (l ++ "\n")) ""

/-! ## Helper lemmas -/

theorem toList_removeWS (s : String) :
    (remove_whitespace_regex s).toList = s.toList.filter (fun c => !isPySpace c) := rfl

theorem mk_append (u v : List Char) :
    String.mk u ++ String.mk v = String.mk (u ++ v) := rfl

theorem removeWS_append (a b : String) :
    remove_whitespace_regex (a ++ b)
      = remove_whitespace_regex a ++ remove_whitespace_regex b := by
  unfold remove_whitespace_regex
  rw [mk_append]
  apply congrArg String.mk
  show (a.toList ++ b.toList).filter (fun c => !isPySpace c) = _
  rw [List.filter_append]

theorem filter_dropWhile_not (l : List Char) :
    (l.dropWhile isPySpace).filter (fun c => !isPySpace c)
      = l.filter (fun c => !isPySpace c) := by
  induction l with
  | nil => rfl
  | cons c cs ih =>
    cases h : isPySpace c with
    | true => simp [List.dropWhile_cons, h, ih, List.filter_cons]
    | false => simp [List.dropWhile_cons, h, List.filter_cons]

theorem removeWS_strip (s : String) :
    remove_whitespace_regex (stripStr s) = remove_whitespace_regex s := by
  unfold remove_whitespace_regex stripStr
  apply congrArg String.mk
  show ((((s.toList.dropWhile isPySpace).reverse.dropWhile isPySpace).reverse).filter
    (fun c => !isPySpace c)) = _
  rw [List.filter_reverse, filter_dropWhile_not, List.filter_reverse,
    filter_dropWhile_not, List.reverse_reverse]

theorem removeWS_newline (l : String) :
    remove_whitespace_regex (l ++ "\n") = remove_whitespace_regex l := by
  rw [removeWS_append]
  have h : remove_whitespace_regex "\n" = "" := by decide
  rw [h]
  exact String.append_empty _

/-! ## Claim theorems -/

/-- C6: the sequence normalizer `remove_whitespace_regex` removes every
whitespace character (spaces and tabs included), and it is idempotent:
applying it twice yields the same result as applying it once. -/
theorem remove_whitespace_regex_spec (s : String) :
    (∀ c ∈ (remove_whitespace_regex s).toList, isPySpace c = false) ∧
    remove_whitespace_regex (remove_whitespace_regex s) = remove_whitespace_regex s := by
  constructor
  · intro c hc
    rw [toList_removeWS] at hc
    simpa using (List.mem_filter.mp hc).2
  · unfold remove_whitespace_regex
    apply congrArg String.mk
    show (((s.toList.filter (fun c => !isPySpace c))).filter (fun c => !isPySpace c)) = _
    rw [List.filter_filter]
    simp

/-- C6 witness: `remove_whitespace_regex` is idempotent and
whitespace-free on a string with an embedded space and tab. -/
theorem remove_whitespace_regex_spec_check :
    (∀ c ∈ (remove_whitespace_regex "a \tb\nc").toList, isPySpace c = false) ∧
    remove_whitespace_regex (remove_whitespace_regex "a \tb\nc")
      = remove_whitespace_regex "a \tb\nc" :=
  remove_whitespace_regex_spec "a \tb\nc"

/-- C9: the header `>ABC123 Subgroup` passes the inclusion gate yet the
subtype classifier returns `UNKNOWN`, and the record is still written with
an `|UNKNOWN` header and its accession appended to the retained-id list:
passing the gate does not guarantee a subtype of A or B. -/
theorem unknown_subtype_retained :
    FilterSeqs.include_matches ">ABC123 Subgroup" = true ∧
    FilterSeqs.determine_subtype ">ABC123 Subgroup" = "UNKNOWN" ∧
    FilterSeqs.validate_sequences 1 100 0 [">ABC123 Subgroup", "ACGT"]
      = ([">ABC123|UNKNOWN len=4 Subgroup", "ACGT"], [], ["ABC123"]) := by
  decide

/-- C1: in `reformatSeqs.py` a record whose ambiguous count equals
`maxambigs` (here 1, sequence `AN`) is retained when it is terminated by a
following header line, but the identical record is rejected when it is the
final record of the stream: the after-loop block uses a strict `<` on the
ambiguity count, so the retained-iff-bounds contract does not hold
identically for the final record in every script variant. -/
theorem reformat_final_ambig_boundary :
    count_ambiguous_bases "AN" = 1 ∧
    (ReformatSeqs.validate_sequences 1 100 1 [">s1 d", "AN", ">zz", "C"]).1.take 2
      = [">s1 d len=2", "AN"] ∧
    (ReformatSeqs.validate_sequences 1 100 1 [">s1 d", "AN"]).1 = [] := by
  decide

/-- C2: the end-of-input finalize block of `reformatSeqs.py` is not
observationally equivalent to the mid-stream finalize block: on the same
header, sequence and bounds the mid-stream block retains the record and
the end-of-input block rejects it. -/
theorem reformat_eoi_not_equiv :
    ReformatSeqs.finalizeLast 1 100 1 ">s1 d" "AN"
      ≠ ReformatSeqs.finalizeRecord 1 100 1 ">s1 d" "AN" ∧
    (ReformatSeqs.finalizeRecord 1 100 1 ">s1 d" "AN").1 = [">s1 d len=2", "AN"] ∧
    (ReformatSeqs.finalizeLast 1 100 1 ">s1 d" "AN").1 = [] := by
  decide

/-- C3 counterexample: the header `RSV A positive` contains the substring
`rsv a` after lower-casing, yet `determine_subtype` classifies it
`UNKNOWN`, not `RSV_A`: the source pattern `rsv/?a` does not match
`rsv a` with a space. -/
theorem determine_subtype_rsv_space_a :
    strContains (lowerStr "RSV A positive") "rsv a" = true ∧
    FilterSeqs.determine_subtype "RSV A positive" = "UNKNOWN" := by
  decide

/-- C3 (amended): `determine_subtype` lower-cases the header and returns
`RSV_A` when it contains any of `rsva`, `rsv/a`, `virus a`, `subgroup a`
(there is no `rsv a` form), otherwise `RSV_B` on the analogous B forms,
otherwise `UNKNOWN`, with the A test applied strictly before the B test. -/
theorem determine_subtype_amended (h : String) :
    FilterSeqs.determine_subtype h = subtypeOfSpec h := by
  simp only [FilterSeqs.determine_subtype, subtypeOfSpec, matchesAny, specAForms,
    specBForms, List.any_cons, List.any_nil, Bool.or_false, Bool.or_assoc]

/-- C3 witness: on a header containing only the B form `rsv/b`, both the
source classifier and the amended vocabulary classifier answer `RSV_B`. -/
theorem determine_subtype_amended_check :
    FilterSeqs.determine_subtype ">X02 rsv/b strain" = subtypeOfSpec ">X02 rsv/b strain" ∧
    subtypeOfSpec ">X02 rsv/b strain" = "RSV_B" :=
  ⟨determine_subtype_amended ">X02 rsv/b strain", by decide⟩

/-- C4 counterexample: `reformatSeqs.py` applies `re.sub(r'\.\d+', '', ·)`
to the whole header, so a `.2` inside the description is removed as well:
`>AB.1 x.2` becomes `>AB x`, not `>AB x.2` as the claim requires. -/
theorem removeVersions_strips_description :
    removeVersions ">AB.1 x.2" = ">AB x" ∧ ">AB x" ≠ ">AB x.2" := by
  decide

/-- Head of `removeVersionsAux b l` is a digit only if the head of `l` is
that digit and no drop was pending. -/
theorem removeVersionsAux_head (l : List Char) :
    ∀ b, firstIsDigit (removeVersionsAux b l) = true →
      b = false ∧ firstIsDigit l = true := by
  induction l with
  | nil => intro b h; exact absurd h (by simp [removeVersionsAux, firstIsDigit])
  | cons c cs ih =>
    intro b h
    by_cases h1 : (b && c.isDigit) = true
    · rw [removeVersionsAux, if_pos h1] at h
      exact absurd ((ih true h).1) (by simp)
    · by_cases h2 : (c = '.' && firstIsDigit cs) = true
      · rw [removeVersionsAux, if_neg h1, if_pos h2] at h
        exact absurd ((ih true h).1) (by simp)
      · rw [removeVersionsAux, if_neg h1, if_neg h2] at h
        have hc : c.isDigit = true := h
        constructor
        · cases b with
          | false => rfl
          | true => exact absurd (by simp [hc] : (true && c.isDigit) = true) h1
        · exact hc

/-- The output of `removeVersionsAux` has no dot-digit occurrence left. -/
theorem removeVersionsAux_noDotDigit (l : List Char) :
    ∀ b, noDotDigitL (removeVersionsAux b l) = true := by
  induction l with
  | nil => intro b; rfl
  | cons c cs ih =>
    intro b
    by_cases h1 : (b && c.isDigit) = true
    · rw [removeVersionsAux, if_pos h1]; exact ih true
    · by_cases h2 : (c = '.' && firstIsDigit cs) = true
      · rw [removeVersionsAux, if_neg h1, if_pos h2]; exact ih true
      · rw [removeVersionsAux, if_neg h1, if_neg h2]
        rw [noDotDigitL]
        have hnd : (c = '.' && firstIsDigit (removeVersionsAux false cs)) = false := by
          cases hd : firstIsDigit (removeVersionsAux false cs) with
          | false => simp
          | true =>
            have := (removeVersionsAux_head cs false hd).2
            cases hc : decide (c = '.') with
            | false => simp [hc]
            | true => exact absurd (by simp [hc, this]) h2
        rw [hnd]
        simpa using ih false

/-- A list with no dot-digit occurrence is left unchanged. -/
theorem removeVersionsAux_id (l : List Char) (h : noDotDigitL l = true) :
    removeVersionsAux false l = l := by
  induction l with
  | nil => rfl
  | cons c cs ih =>
    rw [noDotDigitL] at h
    have h2 : (c = '.' && firstIsDigit cs) = false := by
      cases hx : (c = '.' && firstIsDigit cs) with
      | false => rfl
      | true => rw [hx] at h; simp at h
    have hcs : noDotDigitL cs = true := by
      rw [h2] at h; simpa using h
    rw [removeVersionsAux, if_neg (by simp), if_neg (by simp [h2]), ih hcs]

/-- C4 (amended): `removeVersions` removes every occurrence of `.` followed
by digits anywhere in the header — its output has no such occurrence left —
and a header without any such occurrence is emitted unchanged. -/
theorem removeVersions_removes_all (s : String) :
    noDotDigit (removeVersions s) = true ∧
    (noDotDigit s = true → removeVersions s = s) := by
  constructor
  · exact removeVersionsAux_noDotDigit s.toList false
  · intro h
    unfold removeVersions
    rw [removeVersionsAux_id s.toList h]
    rfl

/-- C4 witness: the output for `>KY.12 x.3` is dot-digit free, and
`>AB x`, which has no dot-digit occurrence, is unchanged. -/
theorem removeVersions_removes_all_check :
    noDotDigit (removeVersions ">KY.12 x.3") = true ∧ removeVersions ">AB x" = ">AB x" :=
  ⟨(removeVersions_removes_all ">KY.12 x.3").1,
   (removeVersions_removes_all ">AB x").2 (by decide)⟩

/-- Helper: any line that is not a two-token header is passed through
`reformatLine` unchanged. -/
theorem reformatLine_pass (line : String)
    (h : startsWithGt line = false ∨ (splitWS (stripStr (strDrop1 line))).length ≠ 2) :
    ReformatFasta.reformatLine line = line := by
  unfold ReformatFasta.reformatLine
  cases hgt : startsWithGt line with
  | false => simp [hgt]
  | true =>
    rcases h with h | h
    · rw [hgt] at h; cases h
    · simp only [hgt, if_true]
      rcases hp : splitWS (stripStr (strDrop1 line)) with _ | ⟨a, _ | ⟨b, _ | ⟨c, t⟩⟩⟩
      · rfl
      · rfl
      · rw [hp] at h; simp at h
      · rfl

/-- C5: `reformat_stream` rewrites a header line whose text after `>`
splits into exactly two whitespace-delimited tokens `ID` and `ACC` into
`>ID|ref_ACC`, and passes every other line (non-header lines, and header
lines with any other token count) through unchanged. -/
theorem reformatLine_spec (line : String) :
    (∀ id0 acc, startsWithGt line = true →
       splitWS (stripStr (strDrop1 line)) = [id0, acc] →
       ReformatFasta.reformatLine line = ">" ++ id0 ++ "|ref_" ++ acc) ∧
    (startsWithGt line = false → ReformatFasta.reformatLine line = line) ∧
    (startsWithGt line = true → (splitWS (stripStr (strDrop1 line))).length ≠ 2 →
       ReformatFasta.reformatLine line = line) := by
  refine ⟨?_, ?_, ?_⟩
  · intro id0 acc hgt hsp
    unfold ReformatFasta.reformatLine
    simp only [hgt, if_true, hsp]
  · intro hgt
    exact reformatLine_pass line (Or.inl hgt)
  · intro hgt hlen
    exact reformatLine_pass line (Or.inr hlen)

/-- C5 witness: the two-token header `>AB 123` is rewritten to
`>AB|ref_123`, and the sequence line `ACGT` is passed through. -/
theorem reformatLine_spec_check :
    ReformatFasta.reformatLine ">AB 123" = ">AB|ref_123" ∧
    ReformatFasta.reformatLine "ACGT" = "ACGT" :=
  ⟨(reformatLine_spec ">AB 123").1 "AB" "123" (by decide) (by decide),
   (reformatLine_spec "ACGT").2.1 (by decide)⟩

/-- C10: `reformat_stream` writes exactly one output line per input line,
and every line it does not rewrite appears in the output at its position,
identical to the input line. -/
theorem reformat_stream_frame (lines : List String) :
    (ReformatFasta.reformat_stream lines).length = lines.length ∧
    (∀ (i : Nat) (line : String), lines[i]? = some line →
       (startsWithGt line = false ∨ (splitWS (stripStr (strDrop1 line))).length ≠ 2) →
       (ReformatFasta.reformat_stream lines)[i]? = some line) := by
  constructor
  · simp [ReformatFasta.reformat_stream]
  · intro i line hi hpass
    unfold ReformatFasta.reformat_stream
    rw [List.getElem?_map, hi]
    show some (ReformatFasta.reformatLine line) = some line
    rw [reformatLine_pass line hpass]

/-- C10 witness: in a two-line stream the non-header first line appears
unchanged at position 0 of the output. -/
theorem reformat_stream_frame_check :
    (ReformatFasta.reformat_stream ["ACGT", ">AB 123"])[0]? = some "ACGT" :=
  (reformat_stream_frame ["ACGT", ">AB 123"]).2 0 "ACGT" (by decide) (Or.inl (by decide))

/-- Helper: stripping each body line during accumulation changes nothing
after whitespace removal. -/
theorem removeWS_foldl (ls : List String) :
    ∀ s t, remove_whitespace_regex s = remove_whitespace_regex t →
      remove_whitespace_regex (ls.foldl (fun a l => a ++ stripStr l) s)
        = remove_whitespace_regex (ls.foldl (fun a l => a ++ (l ++ "\n")) t) := by
  induction ls with
  | nil => intro s t h; exact h
  | cons l ls ih =>
    intro s t h
    apply ih
    rw [removeWS_append, removeWS_append, removeWS_strip, removeWS_newline, h]

/-- Helper: the accumulated body normalizes to the same string as the raw
body text. -/
theorem removeWS_accumulated (bodyLines : List String) :
    remove_whitespace_regex (accumulatedBody bodyLines)
      = remove_whitespace_regex (rawBody bodyLines) :=
  removeWS_foldl bodyLines "" "" rfl

/-- C7: for a retained record, in both scripts, the sequence line written
out is exactly the normalized body, whose length equals the length of the
raw input body with all whitespace removed, and the `len=` field of the
emitted header carries that same value. -/
theorem retained_length_spec (seq_minlen seq_maxlen maxambigs : Int)
    (header : String) (bodyLines : List String)
    (hacc : acceptB seq_minlen seq_maxlen maxambigs
       (remove_whitespace_regex (accumulatedBody bodyLines)) = true) :
    (remove_whitespace_regex (accumulatedBody bodyLines)).length
        = (remove_whitespace_regex (rawBody bodyLines)).length ∧
    (∃ preF postF,
      (FilterSeqs.finalizeRecord seq_minlen seq_maxlen maxambigs header
          (accumulatedBody bodyLines)).1
        = [preF ++ (" len=" ++
             (toString (remove_whitespace_regex (accumulatedBody bodyLines)).length ++ postF)),
           remove_whitespace_regex (accumulatedBody bodyLines)]) ∧
    (∃ preR,
      (ReformatSeqs.finalizeRecord seq_minlen seq_maxlen maxambigs header
          (accumulatedBody bodyLines)).1
        = [preR ++ (" len=" ++
             toString (remove_whitespace_regex (accumulatedBody bodyLines)).length),
           remove_whitespace_regex (accumulatedBody bodyLines)]) := by
  refine ⟨congrArg String.length (removeWS_accumulated bodyLines), ?_, ?_⟩
  · refine ⟨">" ++ strDrop1 ((splitWS header).headD "") ++ "|"
        ++ FilterSeqs.determine_subtype header,
      " " ++ String.intercalate " " ((splitWS header).drop 1), ?_⟩
    simp only [FilterSeqs.finalizeRecord, hacc, if_true]
    simp [String.append_assoc]
  · refine ⟨header, ?_⟩
    simp only [ReformatSeqs.finalizeRecord, hacc, if_true]
    simp [String.append_assoc]

/-- C7 witness: a record with body lines `AC`, `GT` under bounds
`(1, 100, 0)` is retained and the emitted data satisfy the length
properties. -/
theorem retained_length_spec_check :
    (remove_whitespace_regex (accumulatedBody ["AC", "GT"])).length
        = (remove_whitespace_regex (rawBody ["AC", "GT"])).length ∧
    (∃ preF postF,
      (FilterSeqs.finalizeRecord 1 100 0 ">s1 d" (accumulatedBody ["AC", "GT"])).1
        = [preF ++ (" len=" ++
             (toString (remove_whitespace_regex (accumulatedBody ["AC", "GT"])).length ++ postF)),
           remove_whitespace_regex (accumulatedBody ["AC", "GT"])]) ∧
    (∃ preR,
      (ReformatSeqs.finalizeRecord 1 100 0 ">s1 d" (accumulatedBody ["AC", "GT"])).1
        = [preR ++ (" len=" ++
             toString (remove_whitespace_regex (accumulatedBody ["AC", "GT"])).length),
           remove_whitespace_regex (accumulatedBody ["AC", "GT"])]) :=
  retained_length_spec 1 100 0 ">s1 d" ["AC", "GT"] (by decide)

/-- C8: a record that fails validation in `filterSeqs.py` produces no
output line and no retained id, only the two-line diagnostic naming the
header, the observed length, the acceptable range and the ambiguity count
versus the ceiling; a header that fails the inclusion gate produces the
skip diagnostic and leaves no live record, and a state with no live record
contributes no output and no id at its terminating header line. -/
theorem rejected_and_gated_diagnostics (seq_minlen seq_maxlen maxambigs : Int)
    (header body : String)
    (hrej : acceptB seq_minlen seq_maxlen maxambigs (remove_whitespace_regex body) = false) :
    FilterSeqs.finalizeRecord seq_minlen seq_maxlen maxambigs header body
      = ([], FilterSeqs.rejectDiag seq_minlen seq_maxlen maxambigs header
               (remove_whitespace_regex body).length
               (count_ambiguous_bases (remove_whitespace_regex body)), []) ∧
    (∀ (st : LoopState) (line : String), startsWithGt line = true →
        FilterSeqs.include_matches (stripStr line) = false → st.header = none →
        FilterSeqs.step seq_minlen seq_maxlen maxambigs st line
          = { st with err := st.err ++ [FilterSeqs.skipDiag (stripStr line)],
                      header := none, sequence := "" }) ∧
    (∀ (st : LoopState) (line : String), st.header = none → startsWithGt line = true →
        (FilterSeqs.step seq_minlen seq_maxlen maxambigs st line).out = st.out ∧
        (FilterSeqs.step seq_minlen seq_maxlen maxambigs st line).ids = st.ids) := by
  refine ⟨?_, ?_, ?_⟩
  · simp [FilterSeqs.finalizeRecord, hrej]
  · intro st line hgt hinc hhd
    simp [FilterSeqs.step, hgt, hinc, hhd]
  · intro st line hhd hgt
    simp only [FilterSeqs.step, hgt, if_true, hhd]
    cases hinc : FilterSeqs.include_matches (stripStr line) with
    | true => simp [hinc]
    | false => simp [hinc]

/-- C8 witness: body `ACGT` under bounds `(1, 2, 0)` is rejected with the
exact two diagnostic lines and nothing else. -/
theorem rejected_and_gated_diagnostics_check :
    FilterSeqs.finalizeRecord 1 2 0 ">h x" "ACGT"
      = ([], FilterSeqs.rejectDiag 1 2 0 ">h x"
               (remove_whitespace_regex "ACGT").length
               (count_ambiguous_bases (remove_whitespace_regex "ACGT")), []) :=
  (rejected_and_gated_diagnostics 1 2 0 ">h x" "ACGT" (by decide)).1

end RsvAnalyzer
